import Mathlib

/-!
Shallow embedding of the session- and token-security core of the blog-site
backend (`backend/backend/models/token_blacklist.py`, `session.py`,
`security.py`, `backend/backend/auth/middlewares.py`,
`backend/backend/routes/auth.py`).

Rows of the `token_blacklist` and `user_sessions` SQLite tables are modelled
as lists of records; `query_db(..., one=True)` becomes `List.find?` (the
first matching row), `UPDATE ... WHERE` becomes a `List.map` guarded by the
WHERE condition, and `DELETE ... WHERE` becomes a `List.filter` with the
negated condition.  ISO-8601 timestamp strings are ordered exactly as the
instants they denote, so timestamps are modelled as `Nat` seconds (and as
`Rat` where the source uses fractional `datetime.timestamp()` values).
SHA-256 is an explicit function parameter `sha`: the source only ever
compares digests for equality.  The `security_events` audit table and the
log output are write-only from the core's point of view and are not
modelled.  Python truthiness of optional strings and integers is made
explicit (`None`, `""` and `0` are falsy).
-/

namespace BlogSite

/-- Python truthiness of an optional string: `None` and `""` are falsy. -/
def strTruthy : Option String → Bool
  | none => false
  | some s => !(s == "")

/-- Python truthiness of an optional integer id: `None` and `0` are falsy. -/
def natTruthy : Option Nat → Bool
  | none => false
  | some n => !(n == 0)

/-- Kernel-friendly model of Python's `sep in s` membership test (one-character separator). -/
def pyContains (s : String) (c : Char) : Bool :=
  s.data.contains c

/-- Kernel-friendly model of Python's `str.startswith`. -/
def pyStartsWith (s p : String) : Bool :=
  p.data.isPrefixOf s.data

/-- Kernel-friendly model of Python's `str.endswith`. -/
def pyEndsWith (s p : String) : Bool :=
  p.data.isSuffixOf s.data

/-- Helper for `splitChar`: accumulates the current field in reverse. -/
def splitCharAux (c : Char) : List Char → List Char → List (List Char)
  | [], acc => [acc.reverse]
  | x :: xs, acc =>
    if x == c then acc.reverse :: splitCharAux c xs []
    else splitCharAux c xs (x :: acc)

/-- Kernel-friendly model of Python's `str.split(sep)` for a one-character separator. -/
def splitChar (c : Char) (s : String) : List String :=
  (splitCharAux c s.data []).map String.mk

/-- Kernel-friendly model of Python's `str.strip()`. -/
def pyStrip (s : String) : String :=
  String.mk (((s.data.dropWhile Char.isWhitespace).reverse.dropWhile Char.isWhitespace).reverse)

/-- Kernel-friendly model of Python's `s[:n]` slice on strings. -/
def pyTake (n : Nat) (s : String) : String :=
  String.mk (s.data.take n)

/-- A row of the `user_sessions` table.  Nullable columns are `Option`s; the
`activity_times` TEXT column holds a JSON list of fractional Unix
timestamps, modelled directly as `Option (List Rat)`. -/
structure Session where
  userId : Nat
  sessionKey : String
  csrfState : String
  state : String
  expiresAt : Nat
  deviceFingerprint : Option String
  lastActivity : Nat
  requestCounter : Option Nat
  lastCounterUpdate : Option Nat
  activityTimes : Option (List Rat)
  ipNetworkHash : Option String
  deriving Repr, DecidableEq

/-- A row of the `token_blacklist` table. -/
structure BlacklistEntry where
  jti : String
  userId : Nat
  blacklistedAt : Nat
  expiresAt : Nat
  deriving Repr, DecidableEq

/-- The database state the auth core reads and writes. -/
structure DB where
  sessions : List Session
  blacklist : List BlacklistEntry
  deriving Repr, DecidableEq

namespace TokenBlacklist

/-- Model of `TokenBlacklist.blacklist_token(jti, user_id, expires_at)`: idempotent
insert — if a row with this `jti` already exists the call is a no-op,
otherwise the row is inserted. -/
def blacklist_token (jti : String) (user_id : Nat) (expires_at : Nat) (now : Nat)
    (bl : List BlacklistEntry) : List BlacklistEntry :=
  match bl.find? (fun e => e.jti == jti) with
  | some _ => bl
  | none => bl ++ [⟨jti, user_id, now, expires_at⟩]

/-- The special jti `user_all_tokens:{user_id}` that revokes every token of a user. -/
def sentinelJti (user_id : Nat) : String :=
  "user_all_tokens:" ++ toString user_id

/-- Model of `TokenBlacklist.is_token_blacklisted(jti, user_id=None)`: true if a row
with this `jti` exists, else — when `user_id` is truthy — true iff the
sentinel row `user_all_tokens:{user_id}` exists.  Expiry of rows is not
consulted here. -/
def is_token_blacklisted (jti : String) (user_id : Option Nat)
    (bl : List BlacklistEntry) : Bool :=
  if (bl.find? (fun e => e.jti == jti)).isSome then true
  else if natTruthy user_id then
    (bl.find? (fun e => e.jti == sentinelJti (user_id.getD 0))).isSome
  else false

/-- Model of `is_token_blacklisted` when the underlying database query raises: the
function catches every exception itself and returns `False`. -/
def is_token_blacklisted_err (dbRaises : Bool) (jti : String) (user_id : Option Nat)
    (bl : List BlacklistEntry) : Bool :=
  if dbRaises then false else is_token_blacklisted jti user_id bl

/-- Model of `TokenBlacklist.clear_expired_tokens()`: delete rows with `expires_at < now`. -/
def clear_expired_tokens (now : Nat) (bl : List BlacklistEntry) : List BlacklistEntry :=
  bl.filter (fun e => !(e.expiresAt < now))

/-- One year, the lifetime `blacklist_user_tokens` gives the sentinel row
(`timedelta(days=365)`). -/
def YEAR_SECONDS : Nat := 365 * 86400

/-- Model of `TokenBlacklist.blacklist_user_tokens(user_id)`: delete every row of the
user, then insert the sentinel row with a one-year expiry. -/
def blacklist_user_tokens (user_id : Nat) (now : Nat)
    (bl : List BlacklistEntry) : List BlacklistEntry :=
  (bl.filter (fun e => !(e.userId == user_id))) ++
    [⟨sentinelJti user_id, user_id, now, now + YEAR_SECONDS⟩]

end TokenBlacklist

/-- The operations that touch the `token_blacklist` table. -/
inductive BlacklistOp where
  | revokeOne (jti : String) (uid expires : Nat)
  | revokeAll (uid : Nat)
  | sweep
  deriving Repr, DecidableEq

/-- One blacklist-table operation executed at time `now`. -/
def blacklistStep (now : Nat) : BlacklistOp → List BlacklistEntry → List BlacklistEntry
  | .revokeOne j u e, bl => TokenBlacklist.blacklist_token j u e now bl
  | .revokeAll u, bl => TokenBlacklist.blacklist_user_tokens u now bl
  | .sweep, bl => TokenBlacklist.clear_expired_tokens now bl

/-- Run a timestamped trace of blacklist-table operations. -/
def runBlacklist : List (Nat × BlacklistOp) → List BlacklistEntry → List BlacklistEntry
  | [], bl => bl
  | (t, op) :: rest, bl => runBlacklist rest (blacklistStep t op bl)

/-- The sentinel row of user `u` revoked at time `t0` is present with its
full one-year expiry. -/
def sentinelGood (u t0 : Nat) (bl : List BlacklistEntry) : Prop :=
  ∃ e ∈ bl, e.jti = TokenBlacklist.sentinelJti u ∧ e.userId = u ∧
    t0 + TokenBlacklist.YEAR_SECONDS ≤ e.expiresAt

theorem sentinelGood_init (u t0 : Nat) (bl : List BlacklistEntry) :
    sentinelGood u t0 (TokenBlacklist.blacklist_user_tokens u t0 bl) := by
  refine ⟨⟨TokenBlacklist.sentinelJti u, u, t0, t0 + TokenBlacklist.YEAR_SECONDS⟩, ?_, rfl, rfl, le_refl _⟩
  unfold TokenBlacklist.blacklist_user_tokens
  exact List.mem_append_right _ (List.mem_singleton.mpr rfl)

theorem sentinelGood_step (u t0 t : Nat) (op : BlacklistOp) (bl : List BlacklistEntry)
    (hlo : t0 ≤ t) (hhi : t ≤ t0 + TokenBlacklist.YEAR_SECONDS)
    (h : sentinelGood u t0 bl) : sentinelGood u t0 (blacklistStep t op bl) := by
  obtain ⟨e, he, hjti, huid, hexp⟩ := h
  cases op with
  | revokeOne j u' x =>
    simp only [blacklistStep, TokenBlacklist.blacklist_token]
    cases hfind : (bl.find? (fun e => e.jti == j)) with
    | some _ => exact ⟨e, he, hjti, huid, hexp⟩
    | none => exact ⟨e, List.mem_append_left _ he, hjti, huid, hexp⟩
  | revokeAll u' =>
    simp only [blacklistStep, TokenBlacklist.blacklist_user_tokens]
    by_cases hu : u' = u
    · subst hu
      refine ⟨⟨TokenBlacklist.sentinelJti u', u', t, t + TokenBlacklist.YEAR_SECONDS⟩,
        List.mem_append_right _ (List.mem_singleton.mpr rfl), rfl, rfl, ?_⟩
      exact Nat.add_le_add_right hlo _
    · refine ⟨e, List.mem_append_left _ (List.mem_filter.mpr ⟨he, ?_⟩), hjti, huid, hexp⟩
      simp [huid, Ne.symm hu]
  | sweep =>
    simp only [blacklistStep, TokenBlacklist.clear_expired_tokens]
    refine ⟨e, List.mem_filter.mpr ⟨he, ?_⟩, hjti, huid, hexp⟩
    simp only [Bool.not_eq_eq_eq_not, Bool.not_true, decide_eq_false_iff_not, not_lt]
    exact le_trans hhi hexp

theorem sentinelGood_run (u t0 : Nat) (trace : List (Nat × BlacklistOp))
    (bl : List BlacklistEntry)
    (hlo : ∀ p ∈ trace, t0 ≤ p.1)
    (hhi : ∀ p ∈ trace, p.1 ≤ t0 + TokenBlacklist.YEAR_SECONDS)
    (h : sentinelGood u t0 bl) : sentinelGood u t0 (runBlacklist trace bl) := by
  induction trace generalizing bl with
  | nil => exact h
  | cons p rest ih =>
    exact ih (blacklistStep p.1 p.2 bl)
      (fun q hq => hlo q (List.mem_cons_of_mem _ hq))
      (fun q hq => hhi q (List.mem_cons_of_mem _ hq))
      (sentinelGood_step u t0 p.1 p.2 bl (hlo p (List.mem_cons_self _ _))
        (hhi p (List.mem_cons_self _ _)) h)

theorem is_token_blacklisted_of_sentinelGood (u t0 : Nat) (j : String)
    (bl : List BlacklistEntry) (hu : u ≠ 0) (h : sentinelGood u t0 bl) :
    TokenBlacklist.is_token_blacklisted j (some u) bl = true := by
  obtain ⟨e, he, hjti, -, -⟩ := h
  unfold TokenBlacklist.is_token_blacklisted
  by_cases hj : (bl.find? (fun e => e.jti == j)).isSome
  · simp [hj]
  · have hsent : (bl.find? (fun e => e.jti == TokenBlacklist.sentinelJti u)).isSome := by
      rw [List.find?_isSome]
      exact ⟨e, he, by simp [hjti]⟩
    simp [hj, natTruthy, hu, hsent]

/-- C1: after `TokenBlacklist.blacklist_user_tokens(u)` at time `t0`, the
check `TokenBlacklist.is_token_blacklisted(j, u)` returns true for every jti
`j` — including one never individually revoked — and keeps doing so across
any further sequence of blacklist-table operations (individual revocations,
whole-user revocations, expiry sweeps) whose times stay within the sentinel's
one-year lifetime. -/
theorem c1_sentinel_dominance (u : Nat) (j : String) (t0 : Nat)
    (bl0 : List BlacklistEntry) (trace : List (Nat × BlacklistOp))
    (hu : u ≠ 0)
    (hlo : ∀ p ∈ trace, t0 ≤ p.1)
    (hhi : ∀ p ∈ trace, p.1 ≤ t0 + TokenBlacklist.YEAR_SECONDS) :
    TokenBlacklist.is_token_blacklisted j (some u)
      (runBlacklist trace (TokenBlacklist.blacklist_user_tokens u t0 bl0)) = true :=
  is_token_blacklisted_of_sentinelGood u t0 j _ hu
    (sentinelGood_run u t0 trace _ hlo hhi (sentinelGood_init u t0 bl0))

/-- Witness for C1 at concrete inputs: user 7 revokes all tokens at time
1000; a foreign revocation, an expiry sweep and another user's revoke-all
follow within the year; the never-revoked jti `"nrv"` still checks as
blacklisted. -/
theorem c1_sentinel_dominance_witness :
    TokenBlacklist.is_token_blacklisted "nrv" (some 7)
      (runBlacklist
        [(2000, .revokeOne "x" 3 1500), (3000, .sweep), (4000, .revokeAll 9)]
        (TokenBlacklist.blacklist_user_tokens 7 1000
          [⟨"old", 7, 0, 500⟩, ⟨"other", 3, 0, 9999999⟩])) = true :=
  c1_sentinel_dominance 7 "nrv" 1000 [⟨"old", 7, 0, 500⟩, ⟨"other", 3, 0, 9999999⟩]
    [(2000, .revokeOne "x" 3 1500), (3000, .sweep), (4000, .revokeAll 9)]
    (by decide) (by decide) (by decide)

namespace SessionManager

/-- Model of `SessionManager.store_session`: insert a fresh session row with
`request_counter = 0` and `last_activity = last_counter_update = now`.
The `device_fingerprint` column is only filled when the argument is truthy. -/
def store_session (user_id : Nat) (session_key csrf_state session_state : String)
    (expires_at : Nat) (device_fingerprint : Option String) (now : Nat)
    (ss : List Session) : List Session :=
  ss ++ [{ userId := user_id, sessionKey := session_key, csrfState := csrf_state,
           state := session_state, expiresAt := expires_at,
           deviceFingerprint := if strTruthy device_fingerprint then device_fingerprint else none,
           lastActivity := now, requestCounter := some 0, lastCounterUpdate := some now,
           activityTimes := none, ipNetworkHash := none }]

/-- Model of `SessionManager.update_session`: update the row(s) with the given
`session_key`, setting exactly the columns whose argument is truthy. -/
def update_session (session_key : String)
    (new_session_key csrf_state session_state device_fingerprint : Option String)
    (ss : List Session) : List Session :=
  ss.map fun s =>
    if s.sessionKey == session_key then
      { s with
        sessionKey := if strTruthy new_session_key then new_session_key.getD s.sessionKey
                      else s.sessionKey,
        csrfState := if strTruthy csrf_state then csrf_state.getD s.csrfState else s.csrfState,
        state := if strTruthy session_state then session_state.getD s.state else s.state,
        deviceFingerprint := if strTruthy device_fingerprint then device_fingerprint
                             else s.deviceFingerprint }
    else s

/-- Model of `SessionManager.update_activity(user_id)`: `UPDATE user_sessions SET
last_activity = now WHERE user_id = ?` — note the WHERE clause is on
`user_id`, not on a session key. -/
def update_activity (user_id : Nat) (now : Nat) (ss : List Session) : List Session :=
  ss.map fun s => if s.userId == user_id then { s with lastActivity := now } else s

/-- Model of `SessionManager.check_activity(session_key)`: false when the session is
missing; when the session has been inactive for more than `MAX_INACTIVITY`
seconds its state is set to `"expired"` and the check returns false;
otherwise true.  Returns the verdict together with the written table. -/
def check_activity (session_key : String) (now max_inactivity : Nat)
    (ss : List Session) : Bool × List Session :=
  match ss.find? (fun s => s.sessionKey == session_key) with
  | none => (false, ss)
  | some s =>
    if max_inactivity < now - s.lastActivity then
      (false, ss.map fun t =>
        if t.sessionKey == session_key then { t with state := "expired" } else t)
    else (true, ss)

/-- Model of `SessionManager.validate_session(session_key, user_id)`: the session
exists, belongs to the user and is in state `"active"`. -/
def validate_session (session_key : String) (user_id : Nat) (ss : List Session) : Bool :=
  (ss.find? (fun s =>
    s.sessionKey == session_key && s.userId == user_id && s.state == "active")).isSome

/-- Model of `SessionManager.validate_fingerprint(session_key, device_fingerprint)`:
fail-closed fingerprint validation — false when either argument is falsy,
when the session is missing, not `"active"`, past `expires_at`, or stores no
fingerprint (legacy session); otherwise exact equality of fingerprints. -/
def validate_fingerprint (session_key : String) (device_fingerprint : Option String)
    (now : Nat) (ss : List Session) : Bool :=
  if !(strTruthy (some session_key)) || !(strTruthy device_fingerprint) then false
  else
    match ss.find? (fun s => s.sessionKey == session_key) with
    | none => false
    | some s =>
      if !(s.state == "active") then false
      else if s.expiresAt < now then false
      else
        match s.deviceFingerprint with
        | none => false
        | some stored => stored == device_fingerprint.getD ""

/-- The sensitive-path prefixes hard-coded in `check_session_valid`. -/
def sensitive_session_paths : List String :=
  ["/api/admin", "/api/user/update", "/api/settings"]

/-- Model of `SessionManager.check_session_valid(session_key, device_fingerprint=None)`:
the session must exist, be `"active"` and not past `expires_at`; a supplied
fingerprint must validate; a stored-but-unsupplied fingerprint rejects on
sensitive paths; finally the inactivity check of `check_activity` must pass
(its verdict only — the incidental expiry write does not change the verdict). -/
def check_session_valid (session_key : String) (device_fingerprint : Option String)
    (path : String) (now max_inactivity : Nat) (ss : List Session) : Bool :=
  if session_key == "" then false
  else
    match ss.find? (fun s =>
        s.sessionKey == session_key && decide (now < s.expiresAt) && s.state == "active") with
    | none => false
    | some s =>
      if strTruthy device_fingerprint then
        if validate_fingerprint session_key device_fingerprint now ss then
          (check_activity session_key now max_inactivity ss).1
        else false
      else if strTruthy s.deviceFingerprint &&
          sensitive_session_paths.any (fun p => pyStartsWith path p) then false
      else (check_activity session_key now max_inactivity ss).1

/-- Model of `check_session_valid` when the underlying database query raises: the
function catches every exception itself and returns `False`. -/
def check_session_valid_err (dbRaises : Bool) (session_key : String)
    (device_fingerprint : Option String) (path : String) (now max_inactivity : Nat)
    (ss : List Session) : Bool :=
  if dbRaises then false
  else check_session_valid session_key device_fingerprint path now max_inactivity ss

/-- Model of `SessionManager.delete_session(session_key)`: delete the row(s) with the
given key; a falsy key is a no-op. -/
def delete_session (session_key : String) (ss : List Session) : List Session :=
  if session_key == "" then ss
  else ss.filter (fun s => !(s.sessionKey == session_key))

/-- Model of `SessionManager.clear_expired()`: delete rows with `expires_at < now`. -/
def clear_expired (now : Nat) (ss : List Session) : List Session :=
  ss.filter (fun s => !(s.expiresAt < now))

end SessionManager

namespace SecurityMonitor

/-- Model of `SecurityMonitor.track_request_counter(session_key)`: read the counter,
compute `new_counter = current_counter + 1`, flag `suspicious` when the
update is less than 2 seconds after the previous one AND
`new_counter - current_counter > 1`, then write the counter back.  Returns
`((success, suspicious), written table)`; a missing session yields
`((False, None), unchanged)`. -/
def track_request_counter (session_key : String) (now : Nat) (ss : List Session) :
    (Bool × Option Bool) × List Session :=
  match ss.find? (fun s => s.sessionKey == session_key) with
  | none => ((false, none), ss)
  | some s =>
    let current_counter := s.requestCounter.getD 0
    let new_counter := current_counter + 1
    let suspicious :=
      match s.lastCounterUpdate with
      | none => false
      | some last_update =>
        decide (now - last_update < 2) && decide (new_counter - current_counter > 1)
    ((true, some suspicious),
     ss.map fun t =>
       if t.sessionKey == session_key then
         { t with requestCounter := some new_counter, lastCounterUpdate := some now }
       else t)

/-- Model of `SecurityMonitor.get_ip_network_hash(ip_address)`: hash the network
class of the address (3 octets for the private IPv4 ranges, 2 for public
IPv4, 4 groups for IPv6) concatenated with the request's User-Agent.
Returns `None` on malformed input (the exception is caught inside). -/
def get_ip_network_hash (sha : String → String) (user_agent ip_address : String) :
    Option String :=
  if pyContains ip_address '.' then
    match splitChar '.' ip_address with
    | p0 :: p1 :: p2 :: _ =>
      match p0.toInt? with
      | none => none
      | some first_octet =>
        if first_octet == 10 then
          some (sha (p0 ++ "." ++ p1 ++ "." ++ p2 ++ "|" ++ user_agent))
        else if first_octet == 172 then
          match p1.toInt? with
          | none => none
          | some second =>
            if 16 ≤ second && second ≤ 31 then
              some (sha (p0 ++ "." ++ p1 ++ "." ++ p2 ++ "|" ++ user_agent))
            else some (sha (p0 ++ "." ++ p1 ++ "|" ++ user_agent))
        else if first_octet == 192 then
          match p1.toInt? with
          | none => none
          | some second =>
            if second == 168 then
              some (sha (p0 ++ "." ++ p1 ++ "." ++ p2 ++ "|" ++ user_agent))
            else some (sha (p0 ++ "." ++ p1 ++ "|" ++ user_agent))
        else some (sha (p0 ++ "." ++ p1 ++ "|" ++ user_agent))
    | _ => none
  else if pyContains ip_address ':' then
    match splitChar ':' ip_address with
    | p0 :: p1 :: p2 :: p3 :: _ =>
      some (sha (p0 ++ ":" ++ p1 ++ ":" ++ p2 ++ ":" ++ p3 ++ "|" ++ user_agent))
    | _ => none
  else none

/-- Stable insertion used to model Python's `sorted`. -/
def insertSorted (x : Rat) : List Rat → List Rat
  | [] => [x]
  | y :: ys => if x < y then x :: y :: ys else y :: insertSorted x ys

/-- Model of Python's `sorted` on a list of timestamps. -/
def pySorted (l : List Rat) : List Rat :=
  l.foldr insertSorted []

/-- Differences between successive elements of a list
(`sorted_times[i] - sorted_times[i-1]`). -/
def gapsOf : List Rat → List Rat
  | [] => []
  | [_] => []
  | a :: b :: rest => (b - a) :: gapsOf (b :: rest)

/-- Python's `lst[-20:]`: the last 20 elements. -/
def last20 (l : List Rat) : List Rat :=
  if 20 < l.length then l.drop (l.length - 20) else l

/-- Model of `SecurityMonitor.track_activity_pattern(session_key)`: append the
current timestamp to the stored activity times, keep only the last 20, flag
`suspicious` when there are at least 5 timestamps and at least 3 of the gaps
between successive sorted timestamps are below 0.5 seconds, then store the
trimmed list back. -/
def track_activity_pattern (session_key : String) (now : Rat) (ss : List Session) :
    (Bool × Option Bool) × List Session :=
  match ss.find? (fun s => s.sessionKey == session_key) with
  | none => ((false, none), ss)
  | some s =>
    let activity_times := (s.activityTimes.getD []) ++ [now]
    let activity_times := last20 activity_times
    let suspicious_count :=
      (gapsOf (pySorted activity_times)).countP (fun d => decide (d < (1 : Rat) / 2))
    let suspicious :=
      decide (5 ≤ activity_times.length) && decide (3 ≤ suspicious_count)
    ((true, some suspicious),
     ss.map fun t =>
       if t.sessionKey == session_key then { t with activityTimes := some activity_times }
       else t)

end SecurityMonitor

/-- The claims of a decoded JWT that the auth core consults
(`sub` is the user id, stringly encoded in the token). -/
structure TokenPayload where
  jti : String
  sub : Option Nat
  session_key : Option String
  fp_hash : Option String
  ip_net : Option String
  ua_hash : Option String
  exp : Nat
  deriving Repr, DecidableEq

/-- The parts of the HTTP request the auth core consults. -/
structure RequestCtx where
  method : String
  path : String
  x_forwarded_for : Option String
  remote_addr : Option String
  x_device_fingerprint : Option String
  user_agent : String
  deriving Repr, DecidableEq

/-- Which internal database operations of `check_if_token_revoked` raise an
exception on this request.  `blacklist_query` and `session_valid_query` are
raised inside `TokenBlacklist.is_token_blacklisted` respectively
`SessionManager.check_session_valid`, both of which catch their own
exceptions; `validate_session_query` is raised inside
`SessionManager.validate_session`, which has no handler, so it propagates
to `check_if_token_revoked`'s own `except` clause. -/
structure DbRaises where
  blacklist_query : Bool
  session_valid_query : Bool
  validate_session_query : Bool
  deriving Repr, DecidableEq

/-- No internal operation raises. -/
def DbRaises.noRaise : DbRaises := ⟨false, false, false⟩

/-- The client IP: first entry of `X-Forwarded-For` when present, else
`request.remote_addr`. -/
def client_ip (req : RequestCtx) : Option String :=
  match (match req.x_forwarded_for with
         | some v => some v
         | none => req.remote_addr) with
  | none => none
  | some v =>
    if !(v == "") && pyContains v ',' then some (pyStrip ((splitChar ',' v).headD v))
    else some v

/-- The HTTP methods `check_csrf` inspects. -/
def mutating_methods : List String := ["POST", "PUT", "DELETE", "PATCH"]

/-- The timestamp embedded in a `token:timestamp`-shaped CSRF value, when
the value splits on `':'` into exactly two parts with an integer second part. -/
def csrf_embedded_ts (c : String) : Option Int :=
  if pyContains c ':' then
    match splitChar ':' c with
    | [_, ts] => ts.toInt?
    | _ => none
  else none

/-- Model of `check_csrf` middleware: skipped for OPTIONS, for non-mutating methods
and for login/register; otherwise the `csrf_state` cookie and the
`X-CSRF-STATE` header must both be (truthily) present and equal, and a
cookie embedding a timestamp older than 24 hours is rejected.  `none`
means the request passes; `some 403` is the rejection status. -/
def check_csrf (method path : String) (csrf_cookie csrf_header : Option String)
    (now : Int) : Option Nat :=
  if method == "OPTIONS" then none
  else if !(mutating_methods.contains method) then none
  else if pyEndsWith path "/login" || pyEndsWith path "/register" then none
  else if !(strTruthy csrf_cookie) && !(strTruthy csrf_header) then some 403
  else if !(strTruthy csrf_cookie) then some 403
  else if !(strTruthy csrf_header) then some 403
  else if !(csrf_cookie == csrf_header) then some 403
  else
    match csrf_embedded_ts (csrf_cookie.getD "") with
    | some ts => if 86400 < now - ts then some 403 else none
    | none => none

/-- Model of `update_session_activity` middleware: on `/api/` requests with a truthy
JWT subject, touch the user's activity via `SessionManager.update_activity`;
any failure to read the JWT leaves the table unchanged. -/
def update_session_activity (path : String) (jwt_sub : Option Nat) (now : Nat)
    (ss : List Session) : List Session :=
  if !(pyStartsWith path "/api/") then ss
  else if natTruthy jwt_sub then SessionManager.update_activity (jwt_sub.getD 0) now ss
  else ss

/-- The admin plus sensitive path prefixes of `check_if_token_revoked`. -/
def admin_sensitive_paths : List String :=
  ["/api/admin", "/api/user/update", "/api/settings/token-settings"]

/-- Model of `check_if_token_revoked(jwt_header, jwt_payload)`: the per-request
revocation decision.  True (= revoked) when the jti or user sentinel is
blacklisted, the session is invalid, the session-user binding fails, or a
device / network / user-agent binding claim mismatches on the paths where it
is enforced; admin paths hard-block on any binding mismatch; an exception
that reaches the function's own handler yields true.  Only the decision is
modelled: the audit-event writes and the incidental expiry write inside
`check_activity` (which cannot change the verdict) are dropped. -/
def check_if_token_revoked (sha : String → String) (errs : DbRaises)
    (p : TokenPayload) (req : RequestCtx) (now max_inactivity : Nat) (db : DB) : Bool :=
  let current_fp_hash : Option String :=
    if strTruthy req.x_device_fingerprint then some (sha (req.x_device_fingerprint.getD ""))
    else none
  let current_ip_net : Option String :=
    match client_ip req with
    | some ip =>
      if ip == "" then none
      else SecurityMonitor.get_ip_network_hash sha req.user_agent ip
    | none => none
  let current_ua_hash := pyTake 16 (sha req.user_agent)
  let is_blacklisted :=
    TokenBlacklist.is_token_blacklisted_err errs.blacklist_query p.jti p.sub db.blacklist
  let session_invalid := strTruthy p.session_key &&
    !(SessionManager.check_session_valid_err errs.session_valid_query
        (p.session_key.getD "") none req.path now max_inactivity db.sessions)
  if strTruthy p.session_key && errs.validate_session_query then true
  else
    let session_user_mismatch := strTruthy p.session_key &&
      !(match p.sub with
        | some u => SessionManager.validate_session (p.session_key.getD "") u db.sessions
        | none => false)
    let device_mismatch := strTruthy p.fp_hash && strTruthy current_fp_hash &&
      !(p.fp_hash == current_fp_hash)
    if device_mismatch && admin_sensitive_paths.any (fun q => pyStartsWith req.path q) then
      true
    else
      let network_mismatch := strTruthy p.ip_net && strTruthy current_ip_net &&
        !(p.ip_net == current_ip_net) &&
        admin_sensitive_paths.any (fun q => pyStartsWith req.path q)
      let ua_mismatch := strTruthy p.ua_hash && !(p.ua_hash == some current_ua_hash) &&
        pyStartsWith req.path "/api/admin"
      if pyStartsWith req.path "/api/admin" &&
          (device_mismatch || network_mismatch || ua_mismatch) then true
      else
        is_blacklisted || session_invalid || session_user_mismatch ||
          device_mismatch || network_mismatch || ua_mismatch

/-- The outcome of the `/refresh` route. -/
inductive RefreshOutcome where
  | deviceMismatch403
  | invalidSession401
  | fingerprintMismatch403
  | success
  deriving Repr, DecidableEq

/-- The `/refresh` route: reject on a device-binding mismatch of the
presented refresh token, otherwise immediately blacklist its jti, then
validate the session and the stored fingerprint, rotate the CSRF state on
the same session key and run the two tracking updates.  The freshly minted
jti and CSRF value are passed in (`uuid4`/`token_hex` are nondeterministic). -/
def refresh (sha : String → String) (p : TokenPayload) (req : RequestCtx)
    (new_csrf : String) (now max_inactivity : Nat) (db : DB) : RefreshOutcome × DB :=
  let device_fingerprint := req.x_device_fingerprint
  if strTruthy p.fp_hash && strTruthy device_fingerprint &&
      !(p.fp_hash == some (sha (device_fingerprint.getD ""))) then
    (.deviceMismatch403, db)
  else
    let db := { db with
      blacklist := TokenBlacklist.blacklist_token p.jti (p.sub.getD 0) p.exp now db.blacklist }
    let session_key := p.session_key.getD ""
    if !(strTruthy p.session_key) ||
        !(SessionManager.check_session_valid session_key none req.path now max_inactivity
            db.sessions) then
      (.invalidSession401, db)
    else if strTruthy device_fingerprint &&
        !(SessionManager.validate_fingerprint session_key device_fingerprint now
            db.sessions) then
      (.fingerprintMismatch403, db)
    else
      let ss := SessionManager.update_session session_key none (some new_csrf)
        (some "active") device_fingerprint db.sessions
      let ss := (SecurityMonitor.track_request_counter session_key now ss).2
      let ss := (SecurityMonitor.track_activity_pattern session_key (now : Rat) ss).2
      (.success, { db with sessions := ss })

/-- The `/logout` route: the fingerprint check result is only logged; the
session row is deleted whenever the token carries a session key, and the jti
is blacklisted unconditionally. -/
def logout (p : TokenPayload) (req : RequestCtx) (now : Nat) (db : DB) : DB :=
  let _fingerprint_matches :=
    strTruthy p.session_key && strTruthy req.x_device_fingerprint &&
      SessionManager.validate_fingerprint (p.session_key.getD "")
        req.x_device_fingerprint now db.sessions
  let db :=
    if strTruthy p.session_key then
      { db with sessions := SessionManager.delete_session (p.session_key.getD "") db.sessions }
    else db
  { db with
    blacklist := TokenBlacklist.blacklist_token p.jti (p.sub.getD 0) p.exp now db.blacklist }

/-- The operations that touch the `user_sessions` table. -/
inductive SessionOp where
  | store (user_id : Nat) (key csrf st : String) (expires : Nat) (fp : Option String)
  | update (key : String) (new_key csrf st fp : Option String)
  | touch (user_id : Nat)
  | checkAct (key : String)
  | delete (key : String)
  | sweep
  | trackCounter (key : String)
  | trackPattern (key : String)
  deriving Repr, DecidableEq

/-- One session-table operation executed at time `now`. -/
def sessionStep (max_inactivity now : Nat) : SessionOp → List Session → List Session
  | .store u k c st e fp, ss => SessionManager.store_session u k c st e fp now ss
  | .update k nk c st fp, ss => SessionManager.update_session k nk c st fp ss
  | .touch u, ss => SessionManager.update_activity u now ss
  | .checkAct k, ss => (SessionManager.check_activity k now max_inactivity ss).2
  | .delete k, ss => SessionManager.delete_session k ss
  | .sweep, ss => SessionManager.clear_expired now ss
  | .trackCounter k, ss => (SecurityMonitor.track_request_counter k now ss).2
  | .trackPattern k, ss => (SecurityMonitor.track_activity_pattern k (now : Rat) ss).2

/-- Run a timestamped trace of session-table operations. -/
def runSession (max_inactivity : Nat) : List (Nat × SessionOp) → List Session → List Session
  | [], ss => ss
  | (t, op) :: rest, ss => runSession max_inactivity rest (sessionStep max_inactivity t op ss)

/-- The operation neither re-activates a session stored under `key` nor
moves a row onto `key`: a store uses a fresh key, and an update neither
targets `key` with an explicit `"active"` state nor renames another row to
`key`. -/
def neverRevives (key : String) : SessionOp → Bool
  | .store _ k _ _ _ _ => !(k == key)
  | .update k nk _ st _ => !(nk == some key) && (!(k == key) || !(st == some "active"))
  | _ => true

theorem blacklist_token_mem (jti : String) (u e now : Nat) (bl : List BlacklistEntry) :
    ((TokenBlacklist.blacklist_token jti u e now bl).find? (fun x => x.jti == jti)).isSome := by
  unfold TokenBlacklist.blacklist_token
  cases hfind : bl.find? (fun x => x.jti == jti) with
  | some x => simp [hfind]
  | none =>
    rw [List.find?_isSome]
    exact ⟨⟨jti, u, now, e⟩, List.mem_append_right _ (List.mem_singleton.mpr rfl), by simp⟩

theorem is_token_blacklisted_of_find (jti : String) (uid : Option Nat)
    (bl : List BlacklistEntry) (h : (bl.find? (fun x => x.jti == jti)).isSome) :
    TokenBlacklist.is_token_blacklisted jti uid bl = true := by
  unfold TokenBlacklist.is_token_blacklisted
  simp [h]

/-- C4: `SessionManager.validate_fingerprint` is fail-closed: for every
session whose stored `device_fingerprint` is null (legacy session) it
returns false for every supplied fingerprint, and it likewise returns false
when the session does not exist, is not in state `"active"`, or is past its
expiry. -/
theorem c4_validate_fingerprint_fail_closed :
    (∀ (key : String) (fp : Option String) (now : Nat) (ss : List Session) (s : Session),
      ss.find? (fun t => t.sessionKey == key) = some s → s.deviceFingerprint = none →
      SessionManager.validate_fingerprint key fp now ss = false) ∧
    (∀ (key : String) (fp : Option String) (now : Nat) (ss : List Session),
      ss.find? (fun t => t.sessionKey == key) = none →
      SessionManager.validate_fingerprint key fp now ss = false) ∧
    (∀ (key : String) (fp : Option String) (now : Nat) (ss : List Session) (s : Session),
      ss.find? (fun t => t.sessionKey == key) = some s → s.state ≠ "active" →
      SessionManager.validate_fingerprint key fp now ss = false) ∧
    (∀ (key : String) (fp : Option String) (now : Nat) (ss : List Session) (s : Session),
      ss.find? (fun t => t.sessionKey == key) = some s → s.expiresAt < now →
      SessionManager.validate_fingerprint key fp now ss = false) := by
  refine ⟨?_, ?_, ?_, ?_⟩
  · intro key fp now ss s hfind hfp
    unfold SessionManager.validate_fingerprint
    rw [hfind]
    split
    · rfl
    · simp [hfp]
  · intro key fp now ss hfind
    unfold SessionManager.validate_fingerprint
    rw [hfind]
    split <;> rfl
  · intro key fp now ss s hfind hstate
    unfold SessionManager.validate_fingerprint
    rw [hfind]
    split
    · rfl
    · simp [hstate]
  · intro key fp now ss s hfind hexp
    unfold SessionManager.validate_fingerprint
    rw [hfind]
    split
    · rfl
    · simp [hexp]

/-- A legacy session without a stored fingerprint. -/
def c4legacy : Session :=
  ⟨2, "leg", "c", "active", 10000, none, 50, some 0, some 50, none, none⟩

/-- A session already marked expired by the inactivity check. -/
def c4inactive : Session :=
  ⟨2, "ina", "c", "expired", 10000, some "fp", 50, some 0, some 50, none, none⟩

/-- A session past its hard expiry. -/
def c4expired : Session :=
  ⟨2, "exp", "c", "active", 10, some "fp", 50, some 0, some 50, none, none⟩

/-- The three-session table used by the C4 witness. -/
def c4table : List Session := [c4legacy, c4inactive, c4expired]

/-- Witness for C4 at concrete inputs: a legacy session rejects any supplied
fingerprint; a missing, inactive or hard-expired session rejects as well. -/
theorem c4_validate_fingerprint_fail_closed_witness :
    SessionManager.validate_fingerprint "leg" (some "anything") 100 c4table = false ∧
    SessionManager.validate_fingerprint "nosuch" (some "anything") 100 c4table = false ∧
    SessionManager.validate_fingerprint "ina" (some "fp") 100 c4table = false ∧
    SessionManager.validate_fingerprint "exp" (some "fp") 100 c4table = false :=
  ⟨c4_validate_fingerprint_fail_closed.1 "leg" (some "anything") 100 c4table c4legacy
      (by decide) rfl,
   c4_validate_fingerprint_fail_closed.2.1 "nosuch" (some "anything") 100 c4table
      (by decide),
   c4_validate_fingerprint_fail_closed.2.2.1 "ina" (some "fp") 100 c4table c4inactive
      (by decide) (by decide),
   c4_validate_fingerprint_fail_closed.2.2.2 "exp" (some "fp") 100 c4table c4expired
      (by decide) (by decide)⟩

/-- C6 (code bug): `SecurityMonitor.track_request_counter` can never report
suspicious activity, however rapidly it is called: the delta it tests is
`new_counter - current_counter` with `new_counter = current_counter + 1`
computed in the same call, which is always exactly 1 and never `> 1`. -/
theorem c6_counter_never_suspicious (key : String) (now : Nat) (ss : List Session) :
    (SecurityMonitor.track_request_counter key now ss).1.2 ≠ some true := by
  unfold SecurityMonitor.track_request_counter
  cases hfind : ss.find? (fun s => s.sessionKey == key) with
  | none => simp
  | some s =>
    simp
    split <;> rfl

/-- C9 (amended): `SessionManager.update_activity` — the body of the
activity touch — rewrites exactly the `last_activity` column, but does so
for every session row of the given user (the WHERE clause is on `user_id`,
not on the request's session key); rows of other users are untouched. -/
theorem c9_update_activity_frame (u now : Nat) (ss : List Session) :
    List.Forall₂ (fun s t =>
      (s.userId ≠ u → t = s) ∧
      (s.userId = u → t.userId = s.userId ∧ t.sessionKey = s.sessionKey ∧
        t.csrfState = s.csrfState ∧ t.state = s.state ∧ t.expiresAt = s.expiresAt ∧
        t.deviceFingerprint = s.deviceFingerprint ∧ t.requestCounter = s.requestCounter ∧
        t.lastCounterUpdate = s.lastCounterUpdate ∧ t.activityTimes = s.activityTimes ∧
        t.ipNetworkHash = s.ipNetworkHash ∧ t.lastActivity = now))
      ss (SessionManager.update_activity u now ss) := by
  induction ss with
  | nil => exact List.Forall₂.nil
  | cons s rest ih =>
    refine List.Forall₂.cons ?_ ih
    by_cases h : s.userId = u
    · exact ⟨fun hne => absurd h hne,
        fun _ => by simp [SessionManager.update_activity, h]⟩
    · exact ⟨fun _ => by simp [SessionManager.update_activity, h],
        fun heq => absurd heq h⟩

/-- The request's own session of user 1. -/
def c9sessA : Session := ⟨1, "a", "c1", "active", 10000, none, 5, some 0, some 5, none, none⟩

/-- An independent second session of the same user. -/
def c9sessB : Session := ⟨1, "b", "c2", "active", 10000, none, 5, some 0, some 5, none, none⟩

/-- C9 counterexample: the activity touch performed for a request of user 1
bound to session `"a"` also rewrites `last_activity` of the user's other
session `"b"` (from 5 to 100), so "every other session's rows are unchanged"
fails on the code. -/
theorem c9_touch_other_session_cex :
    (update_session_activity "/api/posts" (some 1) 100 [c9sessA, c9sessB]).get
        ⟨1, by decide⟩ ≠ c9sessB ∧
    ((update_session_activity "/api/posts" (some 1) 100 [c9sessA, c9sessB]).get
        ⟨1, by decide⟩).lastActivity = 100 ∧
    c9sessB.lastActivity = 5 := by
  decide

/-- C10: `/logout` deletes the session row and blacklists the token's jti
unconditionally — the statement quantifies over every request context, in
particular over every (matching or mismatching) `X-Device-Fingerprint`
header, which is only consulted for logging. -/
theorem c10_logout_unconditional (p : TokenPayload) (req : RequestCtx) (now : Nat)
    (db : DB) (k : String) (hk : p.session_key = some k) (hk2 : k ≠ "") :
    (∀ s ∈ (logout p req now db).sessions, s.sessionKey ≠ k) ∧
    TokenBlacklist.is_token_blacklisted p.jti p.sub (logout p req now db).blacklist = true := by
  have htr : strTruthy p.session_key = true := by simp [hk, strTruthy, hk2]
  constructor
  · intro s hs
    unfold logout at hs
    simp only [htr, if_true] at hs
    unfold SessionManager.delete_session at hs
    rw [hk] at hs
    simp only [Option.getD_some] at hs
    rw [if_neg (by simp [hk2])] at hs
    have := List.of_mem_filter hs
    simpa using this
  · have hbl : (logout p req now db).blacklist
        = TokenBlacklist.blacklist_token p.jti (p.sub.getD 0) p.exp now db.blacklist := by
      simp only [logout]
      split <;> rfl
    rw [hbl]
    exact is_token_blacklisted_of_find _ _ _
      (blacklist_token_mem p.jti (p.sub.getD 0) p.exp now db.blacklist)

/-- A session row for the C10 witness. -/
def c10sess : Session := ⟨4, "sk10", "c", "active", 10000, some "fpA", 60, some 3, some 60, none, none⟩

/-- Witness for C10: logging out with a mismatching fingerprint header still
deletes session `"sk10"` and blacklists jti `"jti10"`. -/
theorem c10_logout_unconditional_witness :
    (∀ s ∈ (logout ⟨"jti10", some 4, some "sk10", none, none, none, 5000⟩
        ⟨"POST", "/api/logout", none, some "1.2.3.4", some "WRONG-FP", "UA"⟩ 100
        ⟨[c10sess], []⟩).sessions, s.sessionKey ≠ "sk10") ∧
    TokenBlacklist.is_token_blacklisted "jti10" (some 4)
      (logout ⟨"jti10", some 4, some "sk10", none, none, none, 5000⟩
        ⟨"POST", "/api/logout", none, some "1.2.3.4", some "WRONG-FP", "UA"⟩ 100
        ⟨[c10sess], []⟩).blacklist = true :=
  c10_logout_unconditional ⟨"jti10", some 4, some "sk10", none, none, none, 5000⟩
    ⟨"POST", "/api/logout", none, some "1.2.3.4", some "WRONG-FP", "UA"⟩ 100
    ⟨[c10sess], []⟩ "sk10" rfl (by decide)

/-- No session stored under `key` is `"active"`. -/
def noActive (key : String) (ss : List Session) : Prop :=
  ∀ s ∈ ss, s.sessionKey = key → s.state ≠ "active"

instance noActiveDecidable (key : String) (ss : List Session) : Decidable (noActive key ss) := by
  unfold noActive
  infer_instance

theorem noActive_map_preserve (key : String) (ss : List Session) (f : Session → Session)
    (hf : ∀ s, (f s).sessionKey = s.sessionKey ∧ ((f s).state = s.state ∨ (f s).state = "expired"))
    (h : noActive key ss) : noActive key (ss.map f) := by
  intro t ht hk
  obtain ⟨s, hs, rfl⟩ := List.mem_map.mp ht
  obtain ⟨hkey, hstate⟩ := hf s
  rcases hstate with hstate | hstate
  · rw [hstate]
    exact h s hs (hkey ▸ hk)
  · rw [hstate]
    decide

theorem sessionStep_no_revive (key : String) (mi now : Nat) (op : SessionOp)
    (ss : List Session) (hop : neverRevives key op = true)
    (h : noActive key ss) : noActive key (sessionStep mi now op ss) := by
  cases op with
  | store u k c st e fp =>
    intro t ht hk
    simp only [sessionStep, SessionManager.store_session] at ht
    rcases List.mem_append.mp ht with h1 | h2
    · exact h t h1 hk
    · simp only [List.mem_singleton] at h2
      subst h2
      simp only [neverRevives, Bool.not_eq_eq_eq_not, Bool.not_true, beq_eq_false_iff_ne,
        ne_eq] at hop
      exact absurd hk hop
  | update k nk c st fp =>
    intro t ht hk
    simp only [neverRevives, Bool.and_eq_true, Bool.not_eq_eq_eq_not, Bool.not_true,
      beq_eq_false_iff_ne, ne_eq, Bool.or_eq_true] at hop
    obtain ⟨hnk, hst⟩ := hop
    simp only [sessionStep, SessionManager.update_session] at ht
    obtain ⟨s, hs, rfl⟩ := List.mem_map.mp ht
    by_cases hsk : (s.sessionKey == k) = true
    · rw [if_pos hsk] at hk ⊢
      by_cases hnktr : strTruthy nk = true
      · exfalso
        cases nk with
        | none => simp [strTruthy] at hnktr
        | some v =>
          simp only [Option.getD_some] at hk
          simp only [hnktr, if_true, Option.getD_some] at hk
          exact hnk (by rw [hk])
      · simp only [hnktr] at hk ⊢
        simp only [Bool.false_eq_true, if_false] at hk ⊢
        have hkeq : k = key := by
          have := (beq_iff_eq.mp hsk)
          rw [← this, hk]
        rcases hst with hst | hst
        · exact absurd hkeq hst
        · by_cases hsttr : strTruthy st = true
          · cases st with
            | none => simp [strTruthy] at hsttr
            | some v =>
              simp only [hsttr, if_true, Option.getD_some]
              intro hv
              exact hst (by rw [hv])
          · simp only [hsttr, Bool.false_eq_true, if_false]
            exact h s hs hk
    · rw [if_neg hsk] at hk ⊢
      exact h s hs hk
  | touch u =>
    refine noActive_map_preserve key ss _ (fun s => ?_) h
    constructor <;> [skip; left] <;> split <;> rfl
  | checkAct k =>
    intro t ht hk
    simp only [sessionStep, SessionManager.check_activity] at ht
    cases hfind : ss.find? (fun s => s.sessionKey == k) with
    | none =>
      simp only [hfind] at ht
      exact h t ht hk
    | some s =>
      simp only [hfind] at ht
      by_cases hc : mi < now - s.lastActivity
      · rw [if_pos hc] at ht
        obtain ⟨s', hs', rfl⟩ := List.mem_map.mp ht
        by_cases hsk : (s'.sessionKey == k) = true
        · rw [if_pos hsk]
          simp
        · rw [if_neg hsk] at hk ⊢
          exact h s' hs' hk
      · rw [if_neg hc] at ht
        exact h t ht hk
  | delete k =>
    intro t ht hk
    simp only [sessionStep, SessionManager.delete_session] at ht
    by_cases hke : (k == "") = true
    · rw [if_pos hke] at ht
      exact h t ht hk
    · rw [if_neg hke] at ht
      exact h t (List.mem_of_mem_filter ht) hk
  | sweep =>
    intro t ht hk
    exact h t (List.mem_of_mem_filter ht) hk
  | trackCounter k =>
    intro t ht hk
    simp only [sessionStep, SecurityMonitor.track_request_counter] at ht
    cases hfind : ss.find? (fun s => s.sessionKey == k) with
    | none =>
      simp only [hfind] at ht
      exact h t ht hk
    | some s =>
      simp only [hfind] at ht
      obtain ⟨s', hs', rfl⟩ := List.mem_map.mp ht
      by_cases hsk : (s'.sessionKey == k) = true
      · rw [if_pos hsk] at hk ⊢
        exact h s' hs' hk
      · rw [if_neg hsk] at hk ⊢
        exact h s' hs' hk
  | trackPattern k =>
    intro t ht hk
    simp only [sessionStep, SecurityMonitor.track_activity_pattern] at ht
    cases hfind : ss.find? (fun s => s.sessionKey == k) with
    | none =>
      simp only [hfind] at ht
      exact h t ht hk
    | some s =>
      simp only [hfind] at ht
      obtain ⟨s', hs', rfl⟩ := List.mem_map.mp ht
      by_cases hsk : (s'.sessionKey == k) = true
      · rw [if_pos hsk] at hk ⊢
        exact h s' hs' hk
      · rw [if_neg hsk] at hk ⊢
        exact h s' hs' hk

theorem runSession_no_revive (key : String) (mi : Nat) (trace : List (Nat × SessionOp))
    (ss : List Session) (htr : ∀ p ∈ trace, neverRevives key p.2 = true)
    (h : noActive key ss) : noActive key (runSession mi trace ss) := by
  induction trace generalizing ss with
  | nil => exact h
  | cons p rest ih =>
    exact ih (sessionStep mi p.1 p.2 ss)
      (fun q hq => htr q (List.mem_cons_of_mem _ hq))
      (sessionStep_no_revive key mi p.1 p.2 ss (htr p (List.mem_cons_self _ _)) h)

/-- C5 (amended): a session untouched for more than `MAX_INACTIVITY` seconds
has its state set to `"expired"` by the next `check_activity` call, which
returns false; and an expired session is never returned to `"active"` by any
session-store operation other than an `update_session` explicitly given
`session_state="active"` for it or a `new_session_key` renaming another row
onto its key — in particular a login always stores a fresh session record. -/
theorem c5_expiry_and_no_revival :
    (∀ (key : String) (now mi : Nat) (ss : List Session) (s : Session),
      ss.find? (fun t => t.sessionKey == key) = some s →
      mi < now - s.lastActivity →
      (SessionManager.check_activity key now mi ss).1 = false ∧
      ∀ t ∈ (SessionManager.check_activity key now mi ss).2,
        t.sessionKey = key → t.state = "expired") ∧
    (∀ (key : String) (mi : Nat) (trace : List (Nat × SessionOp)) (ss : List Session),
      (∀ p ∈ trace, neverRevives key p.2 = true) →
      noActive key ss → noActive key (runSession mi trace ss)) := by
  constructor
  · intro key now mi ss s hfind hlate
    simp only [SessionManager.check_activity, hfind]
    rw [if_pos hlate]
    refine ⟨rfl, ?_⟩
    intro t ht hk
    obtain ⟨s', hs', rfl⟩ := List.mem_map.mp ht
    by_cases hsk : (s'.sessionKey == key) = true
    · rw [if_pos hsk]
    · rw [if_neg hsk] at hk ⊢
      exact absurd (beq_iff_eq.mpr hk) hsk
  · exact runSession_no_revive

/-- A session already marked expired, used by the C5 counterexample and witness. -/
def c5expiredSess : Session :=
  ⟨3, "k5", "c", "expired", 100000, none, 5, some 0, some 5, none, none⟩

/-- C5 counterexample: `SessionManager.update_session` invoked with
`session_state="active"` flips the expired session `"k5"` straight back to
`"active"`, so "no operation of the session store ever returns it to
active" fails on the code. -/
theorem c5_update_session_revives_cex :
    c5expiredSess.state = "expired" ∧
    ((SessionManager.update_session "k5" none none (some "active") none
        [c5expiredSess]).get ⟨0, by decide⟩).state = "active" := by
  decide

/-- A session of user 3 that has been inactive for longer than the
3600-second default `MAX_INACTIVITY`. -/
def c5staleSess : Session :=
  ⟨3, "w5", "c", "active", 100000, none, 5, some 0, some 5, none, none⟩

/-- Witness for C5 at concrete inputs: the stale session `"w5"` is expired
by `check_activity` at time 5000, and the expired session `"k5"` stays
non-active across a trace of benign store operations. -/
theorem c5_expiry_and_no_revival_witness :
    ((SessionManager.check_activity "w5" 5000 3600 [c5staleSess]).1 = false ∧
      ∀ t ∈ (SessionManager.check_activity "w5" 5000 3600 [c5staleSess]).2,
        t.sessionKey = "w5" → t.state = "expired") ∧
    noActive "k5" (runSession 3600
      [(10, .update "k5" none (some "csrf2") (some "expired") none),
       (20, .touch 3), (30, .store 8 "fresh" "c" "active" 999999 none),
       (40, .checkAct "k5"), (50, .trackCounter "k5")]
      [c5expiredSess]) :=
  ⟨c5_expiry_and_no_revival.1 "w5" 5000 3600 [c5staleSess] c5staleSess (by decide)
      (by decide),
   c5_expiry_and_no_revival.2 "k5" 3600
      [(10, .update "k5" none (some "csrf2") (some "expired") none),
       (20, .touch 3), (30, .store 8 "fresh" "c" "active" 999999 none),
       (40, .checkAct "k5"), (50, .trackCounter "k5")]
      [c5expiredSess] (by decide) (by decide)⟩

theorem last20_length_le (l : List Rat) : (SecurityMonitor.last20 l).length ≤ 20 := by
  unfold SecurityMonitor.last20
  split
  · rw [List.length_drop]
    omega
  · omega

/-- The spec's wording of the activity-pattern flag, amended to what the
code computes: at least 5 recorded timestamps, of whose successive sorted
gaps at least 3 (not necessarily consecutive) are below half a second. -/
def patternSuspicious (ts : List Rat) : Prop :=
  5 ≤ ts.length ∧
    3 ≤ (SecurityMonitor.gapsOf (SecurityMonitor.pySorted ts)).countP
          (fun d => decide (d < (1 : Rat) / 2))

instance patternSuspiciousDecidable (ts : List Rat) : Decidable (patternSuspicious ts) := by
  unfold patternSuspicious
  infer_instance

/-- C7 (amended): `SecurityMonitor.track_activity_pattern` records the
request time, keeps only the last 20 timestamps, stores them back on the
session row, and reports suspicious exactly when the recorded timestamps
satisfy `patternSuspicious` — at least 5 of them with at least 3 sorted
gaps below 0.5 s. -/
theorem c7_activity_pattern (key : String) (now : Rat) (ss : List Session) (s : Session)
    (hfind : ss.find? (fun t => t.sessionKey == key) = some s) :
    (SecurityMonitor.track_activity_pattern key now ss).1.2
      = some (decide (patternSuspicious
          (SecurityMonitor.last20 ((s.activityTimes.getD []) ++ [now])))) ∧
    (SecurityMonitor.last20 ((s.activityTimes.getD []) ++ [now])).length ≤ 20 ∧
    ∀ t ∈ (SecurityMonitor.track_activity_pattern key now ss).2, t.sessionKey = key →
      t.activityTimes
        = some (SecurityMonitor.last20 ((s.activityTimes.getD []) ++ [now])) := by
  refine ⟨?_, last20_length_le _, ?_⟩
  · simp only [SecurityMonitor.track_activity_pattern, hfind]
    simp [patternSuspicious, Bool.decide_and]
  · intro t ht hk
    simp only [SecurityMonitor.track_activity_pattern, hfind] at ht
    obtain ⟨s', hs', rfl⟩ := List.mem_map.mp ht
    by_cases hsk : (s'.sessionKey == key) = true
    · rw [if_pos hsk]
    · rw [if_neg hsk] at hk
      exact absurd (beq_iff_eq.mpr hk) hsk

/-- A session holding three recorded timestamps 0, 1/4 and 1/2 seconds. -/
def c7sess : Session :=
  ⟨5, "k7", "c", "active", 100000, none, 5, some 0, some 5,
    some [0, (1 : Rat) / 4, (1 : Rat) / 2], none⟩

/-- C7 counterexample: a fourth request at 3/4 s gives recorded timestamps
`[0, 1/4, 1/2, 3/4]` with three consecutive gaps of 1/4 s — each below
0.5 s — yet the code reports suspicious = false, because it only analyses
histories of at least 5 timestamps. -/
theorem c7_three_rapid_gaps_cex :
    (SecurityMonitor.track_activity_pattern "k7" ((3 : Rat) / 4) [c7sess]).1.2
      = some false ∧
    SecurityMonitor.gapsOf (SecurityMonitor.pySorted
        (SecurityMonitor.last20 ((c7sess.activityTimes.getD []) ++ [(3 : Rat) / 4])))
      = [(1 : Rat) / 4, (1 : Rat) / 4, (1 : Rat) / 4] ∧
    ((1 : Rat) / 4 < (1 : Rat) / 2) :=
  ⟨by with_unfolding_all rfl, by with_unfolding_all rfl,
   of_decide_eq_true (by with_unfolding_all rfl)⟩

/-- A session holding four recorded timestamps 1/10 s apart. -/
def c7sessW : Session :=
  ⟨5, "w7", "c", "active", 100000, none, 5, some 0, some 5,
    some [0, (1 : Rat) / 10, (2 : Rat) / 10, (3 : Rat) / 10], none⟩

/-- Witness for C7 at concrete inputs: with four stored timestamps and a
fifth rapid request, the recorded history has 5 entries and 4 gaps below
0.5 s, so the call reports suspicious = true. -/
theorem c7_activity_pattern_witness :
    (SecurityMonitor.track_activity_pattern "w7" ((4 : Rat) / 10) [c7sessW]).1.2
      = some (decide (patternSuspicious
          (SecurityMonitor.last20 ((c7sessW.activityTimes.getD []) ++ [(4 : Rat) / 10])))) ∧
    (SecurityMonitor.last20
        ((c7sessW.activityTimes.getD []) ++ [(4 : Rat) / 10])).length ≤ 20 ∧
    ∀ t ∈ (SecurityMonitor.track_activity_pattern "w7" ((4 : Rat) / 10) [c7sessW]).2,
      t.sessionKey = "w7" →
      t.activityTimes
        = some (SecurityMonitor.last20 ((c7sessW.activityTimes.getD []) ++ [(4 : Rat) / 10])) :=
  c7_activity_pattern "w7" ((4 : Rat) / 10) [c7sessW] c7sessW (by with_unfolding_all rfl)

/-- C8: CSRF symmetry of the `check_csrf` middleware, for mutating,
non-login/register requests: matching truthy cookie/header values whose
embedded timestamp is younger than 24 hours pass; a missing cookie or
header, a mismatch, or an embedded timestamp older than 24 hours is
rejected with 403. -/
theorem c8_csrf_symmetry :
    (∀ (method path c : String) (now ts : Int),
      mutating_methods.contains method = true →
      pyEndsWith path "/login" = false → pyEndsWith path "/register" = false →
      c ≠ "" → csrf_embedded_ts c = some ts → now - ts < 86400 →
      check_csrf method path (some c) (some c) now = none) ∧
    (∀ (method path : String) (cookie header : Option String) (now : Int),
      mutating_methods.contains method = true →
      pyEndsWith path "/login" = false → pyEndsWith path "/register" = false →
      (strTruthy cookie = false ∨ strTruthy header = false) →
      check_csrf method path cookie header now = some 403) ∧
    (∀ (method path c h : String) (now : Int),
      mutating_methods.contains method = true →
      pyEndsWith path "/login" = false → pyEndsWith path "/register" = false →
      c ≠ "" → h ≠ "" → c ≠ h →
      check_csrf method path (some c) (some h) now = some 403) ∧
    (∀ (method path c : String) (now ts : Int),
      mutating_methods.contains method = true →
      pyEndsWith path "/login" = false → pyEndsWith path "/register" = false →
      c ≠ "" → csrf_embedded_ts c = some ts → 86400 < now - ts →
      check_csrf method path (some c) (some c) now = some 403) := by
  have hopt : ∀ method : String, mutating_methods.contains method = true →
      (method == "OPTIONS") = false := by
    intro method hm
    by_contra hx
    rw [Bool.not_eq_false, beq_iff_eq] at hx
    subst hx
    simp [mutating_methods] at hm
  refine ⟨?_, ?_, ?_, ?_⟩
  · intro method path c now ts hm hl hr hc hts hage
    have hfresh : ¬(86400 < now - ts) := by omega
    simp only [check_csrf, hopt method hm, hm, hl, hr]
    simp [strTruthy, hc, hts, hfresh]
  · intro method path cookie header now hm hl hr habs
    simp only [check_csrf, hopt method hm, hm, hl, hr]
    rcases habs with habs | habs <;> simp [habs]
  · intro method path c h now hm hl hr hc hh hne
    simp only [check_csrf, hopt method hm, hm, hl, hr]
    simp [strTruthy, hc, hh, hne]
  · intro method path c now ts hm hl hr hc hts hstale
    simp only [check_csrf, hopt method hm, hm, hl, hr]
    simp [strTruthy, hc, hts, hstale]

/-- Witness for C8 at concrete inputs: a fresh matching pair passes; a
missing cookie, a cookie/header mismatch, and a 24-hour-stale matching pair
are each rejected with 403. -/
theorem c8_csrf_symmetry_witness :
    check_csrf "POST" "/api/posts" (some "ab:100") (some "ab:100") 1000 = none ∧
    check_csrf "PUT" "/api/posts" none (some "x") 1000 = some 403 ∧
    check_csrf "DELETE" "/api/posts" (some "a") (some "b") 1000 = some 403 ∧
    check_csrf "POST" "/api/posts" (some "ab:100") (some "ab:100") 1000000 = some 403 :=
  ⟨c8_csrf_symmetry.1 "POST" "/api/posts" "ab:100" 1000 100 (by decide) (by decide)
      (by decide) (by decide) (by with_unfolding_all rfl) (by decide),
   c8_csrf_symmetry.2.1 "PUT" "/api/posts" none (some "x") 1000 (by decide) (by decide)
      (by decide) (Or.inl rfl),
   c8_csrf_symmetry.2.2.1 "DELETE" "/api/posts" "a" "b" 1000 (by decide) (by decide)
      (by decide) (by decide) (by decide) (by decide),
   c8_csrf_symmetry.2.2.2 "POST" "/api/posts" "ab:100" 1000000 100 (by decide) (by decide)
      (by decide) (by decide) (by with_unfolding_all rfl) (by decide)⟩

theorem check_revoked_of_blacklisted (sha : String → String) (p : TokenPayload)
    (req : RequestCtx) (now mi : Nat) (db : DB)
    (h : TokenBlacklist.is_token_blacklisted p.jti p.sub db.blacklist = true) :
    check_if_token_revoked sha DbRaises.noRaise p req now mi db = true := by
  simp only [check_if_token_revoked, DbRaises.noRaise, TokenBlacklist.is_token_blacklisted_err,
    Bool.and_false, Bool.false_eq_true, if_false, h]
  simp

theorem refresh_blacklist_eq (sha : String → String) (p : TokenPayload) (req : RequestCtx)
    (new_csrf : String) (now mi : Nat) (db : DB)
    (h : (refresh sha p req new_csrf now mi db).1 ≠ RefreshOutcome.deviceMismatch403) :
    (refresh sha p req new_csrf now mi db).2.blacklist
      = TokenBlacklist.blacklist_token p.jti (p.sub.getD 0) p.exp now db.blacklist := by
  simp only [refresh] at h ⊢
  split
  · next hcond =>
    rw [if_pos hcond] at h
    exact absurd rfl h
  · split
    · rfl
    · split
      · rfl
      · rfl

/-- C2: a refresh that succeeds (issues new tokens) has already blacklisted
the presented refresh token's jti, so presenting the same token again is
treated as revoked by the per-request check — for any later request
context, time and inactivity limit. -/
theorem c2_refresh_one_time_use (sha : String → String) (p : TokenPayload)
    (req req2 : RequestCtx) (new_csrf : String) (now mi now2 mi2 : Nat) (db : DB)
    (h : (refresh sha p req new_csrf now mi db).1 = RefreshOutcome.success) :
    check_if_token_revoked sha DbRaises.noRaise p req2 now2 mi2
      (refresh sha p req new_csrf now mi db).2 = true := by
  apply check_revoked_of_blacklisted
  rw [refresh_blacklist_eq sha p req new_csrf now mi db
    (by intro hx; rw [h] at hx; exact RefreshOutcome.noConfusion hx)]
  exact is_token_blacklisted_of_find _ _ _
    (blacklist_token_mem p.jti (p.sub.getD 0) p.exp now db.blacklist)

/-- The active session presented with the refresh token of the C2 witness. -/
def c2sess : Session :=
  ⟨6, "sk2", "c", "active", 1000000, none, 1000, some 0, some 1000, none, none⟩

/-- The refresh token payload of the C2 witness. -/
def c2payload : TokenPayload := ⟨"rjti", some 6, some "sk2", none, none, none, 99999⟩

/-- The request context of the C2 witness. -/
def c2req : RequestCtx := ⟨"POST", "/api/refresh", none, some "8.8.8.8", none, "UA"⟩

/-- Witness for C2 at concrete inputs: the refresh against session `"sk2"`
succeeds, and immediately re-presenting the same token is reported revoked. -/
theorem c2_refresh_one_time_use_witness :
    check_if_token_revoked (fun s => "#" ++ s) DbRaises.noRaise c2payload c2req 1001 3600
      (refresh (fun s => "#" ++ s) c2payload c2req "csrfB" 1000 3600
        ⟨[c2sess], []⟩).2 = true :=
  c2_refresh_one_time_use (fun s => "#" ++ s) c2payload c2req c2req "csrfB" 1000 3600
    1001 3600 ⟨[c2sess], []⟩ (by with_unfolding_all rfl)

/-- C3 (amended): an internal error that reaches
`check_if_token_revoked`'s own exception handler — such as the unguarded
session-user query raising — makes the check fail closed (report revoked);
but an exception raised inside the blacklist lookup is caught within
`TokenBlacklist.is_token_blacklisted`, which then reports the token as not
blacklisted (fail-open for that sub-check). -/
theorem c3_fail_closed_outer_only :
    (∀ (sha : String → String) (errs : DbRaises) (p : TokenPayload) (req : RequestCtx)
        (now mi : Nat) (db : DB),
      errs.validate_session_query = true → strTruthy p.session_key = true →
      check_if_token_revoked sha errs p req now mi db = true) ∧
    (∀ (jti : String) (uid : Option Nat) (bl : List BlacklistEntry),
      TokenBlacklist.is_token_blacklisted_err true jti uid bl = false) := by
  constructor
  · intro sha errs p req now mi db he hk
    simp only [check_if_token_revoked, he, hk]
    simp
  · intro jti uid bl
    rfl

/-- The session row of the C3 scenarios. -/
def c3sess : Session :=
  ⟨1, "sk3", "c", "active", 1000000, none, 1000, some 0, some 1000, none, none⟩

/-- The access-token payload of the C3 scenarios. -/
def c3payload : TokenPayload := ⟨"j3", some 1, some "sk3", none, none, none, 99999⟩

/-- The request context of the C3 scenarios. -/
def c3req : RequestCtx := ⟨"GET", "/api/posts", none, some "8.8.8.8", none, "UA"⟩

/-- A database in which the token `"j3"` is actually blacklisted. -/
def c3db : DB := ⟨[c3sess], [⟨"j3", 1, 500, 99999⟩]⟩

/-- C3 counterexample: the jti `"j3"` is present in the blacklist, an
exception is raised inside the blacklist lookup of the revocation check
(and caught there), and the check nevertheless reports the token as NOT
revoked — the revoked token passes, refuting fail-closed behaviour for
errors inside the blacklist lookup. -/
theorem c3_blacklist_error_fail_open_cex :
    TokenBlacklist.is_token_blacklisted "j3" (some 1) c3db.blacklist = true ∧
    check_if_token_revoked (fun s => "#" ++ s) ⟨true, false, false⟩ c3payload c3req
      1000 3600 c3db = false := by
  constructor
  · with_unfolding_all rfl
  · with_unfolding_all rfl

/-- Witness for the amended C3 at concrete inputs: with the session-user
query raising, the check rejects the token; with the blacklist query
raising, the lookup reports not-blacklisted. -/
theorem c3_fail_closed_outer_only_witness :
    check_if_token_revoked (fun s => "#" ++ s) ⟨false, false, true⟩ c3payload c3req
      1000 3600 c3db = true ∧
    TokenBlacklist.is_token_blacklisted_err true "j3" (some 1) c3db.blacklist = false :=
  ⟨c3_fail_closed_outer_only.1 (fun s => "#" ++ s) ⟨false, false, true⟩ c3payload c3req
      1000 3600 c3db rfl (by decide),
   c3_fail_closed_outer_only.2 "j3" (some 1) c3db.blacklist⟩

end BlogSite
